import Mathlib

/-!
Shallow embedding of the gray-level / calibrated-sensor core of the
bonsai-watering repository, and proofs about its calibration transforms.

Conventions of the embedding:
* Python floats are modelled by exact rationals (`ℚ`) except where the code
  takes a square root (`np.sqrt`), which is modelled over `ℝ` with `Real.sqrt`.
  Every concrete inequality or equality decided below sits far from a
  double-precision rounding boundary (margins of at least 1/256 against
  errors of order 1e-15), except exact-tie rounding cases, which are noted
  where they arise, so the exact model is faithful to the float code.
* numpy elementwise division that can produce a non-finite value (NaN or an
  infinity, which numpy returns with a warning instead of raising) is
  modelled with `Option ℚ`, `none` standing for the non-finite outcome.
* Python exceptions are modelled with `Except`: a function that can raise
  returns `.error e` exactly on the inputs where the source raises.
-/

/-- Python's built-in `round` with no digit argument: round half to even
(banker's rounding), returning an integer. `int(round(x))` in the source is
exactly this function. -/
def pyRound (q : ℚ) : ℤ :=
  if q - ⌊q⌋ < 1/2 then ⌊q⌋
  else if 1/2 < q - ⌊q⌋ then ⌊q⌋ + 1
  else if ⌊q⌋ % 2 = 0 then ⌊q⌋ else ⌊q⌋ + 1

/-- Embeds `ConverttoPercent` from src/firmware/record_analog.py, lines 19-21:
`percent = int(round(data/10.24))`. -/
def ConverttoPercent (data : ℚ) : ℤ :=
  pyRound (data / 10.24)

/-- Embeds `CalibratedMoistureSensor.read_percent` from
src/firmware/calibrated_sensor.py, lines 38-42, as a function of the raw ADC
value it reads: `percent = int(round(raw_value / 10.24))`. -/
def read_percent (raw_value : ℚ) : ℤ :=
  pyRound (raw_value / 10.24)

/-- The default calibration point list of `CalibratedMoistureSensor.__init__`
(src/firmware/calibrated_sensor.py, line 22). -/
def defaultCalibrationPoints : List (ℚ × ℚ) :=
  [(0, 0), (84, 5), (286, 10), (495, 15), (650, 20)]

/-- Embeds `np.polyfit(x, y, 1)` (src/firmware/calibrated_sensor.py, line 29):
the ordinary least-squares line through the points, written via the normal
equations.  numpy computes this by SVD-based least squares; on any set of
points whose raw values are not all equal the two agree exactly (and the
float result agrees to about 1e-15 relative error, far below every margin
used below).  When all raw values coincide the system is rank-deficient:
numpy only emits a RankWarning and still returns finite coefficients; here
the rational division by zero yields `0`.  No value proved below depends on
the coefficients of a rank-deficient fit. -/
def polyfit (points : List (ℚ × ℚ)) : ℚ × ℚ :=
  let n : ℚ := points.length
  let sx := (points.map Prod.fst).sum
  let sy := (points.map Prod.snd).sum
  let sxx := (points.map fun p => p.1 * p.1).sum
  let sxy := (points.map fun p => p.1 * p.2).sum
  let slope := (n * sxy - sx * sy) / (n * sxx - sx * sx)
  (slope, (sy - slope * sx) / n)

/-- Error channel for `CalibratedMoistureSensor.__init__`
(src/firmware/calibrated_sensor.py, lines 6-30).  The source body contains
no raise statement and no validation of the calibration points; the one way
construction fails is inside `np.polyfit`: polyfit scales each Vandermonde
column by its Euclidean norm, so when every raw value is zero the raw-value
column has norm zero, the in-place scaling division injects NaN, and lstsq
fails with a numpy `LinAlgError` (or, if LAPACK returns, unscaling by the
zero norm yields non-finite coefficients).  A merely rank-deficient set with
a nonzero shared raw value only triggers a RankWarning, not an error. -/
inductive InitError
  | linAlgError
deriving DecidableEq

/-- Embeds the numeric part of `CalibratedMoistureSensor.__init__`
(src/firmware/calibrated_sensor.py, lines 6-30): resolve the
`calibration_points or default` Python idiom (`None` and `[]` are both falsy,
so both select the default list), then fit the least-squares line with
`np.polyfit`.  The error branch models polyfit's failure mode: the raw-value
column of the Vandermonde matrix has Euclidean norm zero — equivalently the
sum of squared raw values is zero — exactly when column scaling divides by
zero and lstsq fails (`LinAlgError` / non-finite coefficients).  The
constant column has norm `sqrt(n) > 0` on the nonempty lists this function
produces, so it never triggers the error.  No other validation exists in
the source. -/
def sensorInit (calibration_points : Option (List (ℚ × ℚ))) :
    Except InitError (ℚ × ℚ) :=
  let points := match calibration_points with
    | none => defaultCalibrationPoints
    | some l => if l.isEmpty then defaultCalibrationPoints else l
  if (points.map fun p => p.1 * p.1).sum = 0 then .error .linAlgError
  else .ok (polyfit points)

/-- Embeds `CalibratedMoistureSensor.calibrate`
(src/firmware/calibrated_sensor.py, lines 61-70):
`max(0, slope * raw_value + intercept)`, the fitted pair being
`(slope, intercept)`. -/
def calibrate (fit : ℚ × ℚ) (raw_value : ℚ) : ℚ :=
  max 0 (fit.1 * raw_value + fit.2)

/-- Embeds `CalibratedMoistureSensor.read_calibrated_percent`
(src/firmware/calibrated_sensor.py, lines 49-59) as a function of the raw
value read: `rel_percent = calibrate(raw) / 15.0; int(round(rel_percent * 100))`. -/
def read_calibrated_percent (fit : ℚ × ℚ) (raw_value : ℚ) : ℤ :=
  pyRound (calibrate fit raw_value / 15 * 100)

/-- Saturated moisture content constant of src/model/gray_level.py, line 5. -/
def THETA_S : ℝ := 17

/-- Gray level of dry soil, src/model/gray_level.py, line 6. -/
def GL_0 : ℝ := 120

/-- Gray level at saturation, src/model/gray_level.py, line 7. -/
def GL_S : ℝ := 95

/-- Embeds `estimate_swc` from src/model/gray_level.py, lines 9-26 (the
closed-form saturation transform, variant A).  On a gray level outside
`[Gs, G0]`, and on a degenerate quotient outside `[0, 1]`, the source prints
a message and returns `0`; otherwise it returns
`theta_s * (1 - np.sqrt((G - Gs) / (G0 - Gs)))`. -/
noncomputable def estimate_swc (G G0 Gs theta_s : ℝ) : ℝ :=
  if G0 < G ∨ G < Gs then 0
  else if (G - Gs) / (G0 - Gs) < 0 ∨ 1 < (G - Gs) / (G0 - Gs) then 0
  else theta_s * (1 - Real.sqrt ((G - Gs) / (G0 - Gs)))

/-- The exception raised by `estimate_soil_moisture`
(src/analysis/gray_level.py, line 60): `ValueError("Gray level out of
expected range.")`.  This is the realization of the spec's abstract
`OutOfRangeError` in the strict variant. -/
inductive ValueError
  | grayLevelOutOfRange
deriving DecidableEq

/-- Embeds `estimate_soil_moisture` from src/analysis/gray_level.py,
lines 51-63 (the closed-form transform, variant B, strict policy): raises on
a gray level outside `[GLs, GL0]`, otherwise returns
`u_s - u_s * np.sqrt((gray_level - GLs) / (GL0 - GLs))`. -/
noncomputable def estimate_soil_moisture (gray_level GL0 GLs u_s : ℝ) :
    Except ValueError ℝ :=
  if gray_level < GLs ∨ GL0 < gray_level then .error .grayLevelOutOfRange
  else .ok (u_s - u_s * Real.sqrt ((gray_level - GLs) / (GL0 - GLs)))

/-- Error raised by `cv2.minMaxLoc` on an empty array (an OpenCV assertion
failure surfacing as `cv2.error`); src/analysis/gray_level.py, line 39 is the
only place `apply_brightness_calibration` can raise. -/
inductive CvError
  | emptyInput
deriving DecidableEq

/-- Embeds `cv2.minMaxLoc` restricted to the two values the source uses
(src/analysis/gray_level.py, line 39): the minimum and maximum pixel value.
An image is modelled as the list of its pixel values; pointwise operations
ignore the 2-D arrangement, and shape preservation is length preservation. -/
def cvMinMaxLoc (image : List ℚ) : Except CvError (ℚ × ℚ) :=
  match image with
  | [] => .error .emptyInput
  | p :: rest => .ok (rest.foldl min p, rest.foldl max p)

/-- numpy elementwise division: a zero denominator yields a non-finite value
(NaN when the numerator is also zero, an infinity otherwise) with a runtime
warning but no exception; `none` models the non-finite outcome. -/
def npDiv (a b : ℚ) : Option ℚ :=
  if b = 0 then none else some (a / b)

/-- Embeds `apply_brightness_calibration` from src/analysis/gray_level.py,
lines 35-41, up to and excluding the final `.astype(np.uint8)` cast:
`((image - min_val) / (max_val - min_val)) * (white_ref - black_ref)`.
The result is kept before the cast because casting a non-finite float to
uint8 is undefined behaviour; a pixel of `none` records that the arithmetic
already produced a non-finite value. -/
def apply_brightness_calibration (image : List ℚ) (white_ref black_ref : ℚ) :
    Except CvError (List (Option ℚ)) :=
  match cvMinMaxLoc image with
  | .error e => .error e
  | .ok (min_val, max_val) =>
      .ok (image.map fun p =>
        (npDiv (p - min_val) (max_val - min_val)).map
          fun q => q * (white_ref - black_ref))

/-- `np.mean` of a list of uint8 pixel values, as an exact rational.  numpy
returns NaN with a warning on an empty array; the rational convention
`x / 0 = 0` is only ever relied on where the source itself guards against
the empty case or where both sides agree. -/
def npMean (image : List ℕ) : ℚ :=
  (image.map fun p => (p : ℚ)).sum / image.length

/-- The C cast to uint8 performed by `.astype(np.uint8)` on a non-negative
float that fits in the type: truncation toward zero.  Every value it is
applied to below is a mean of uint8 pixels, hence lies in `[0, 255]`. -/
def uint8OfRat (q : ℚ) : ℕ :=
  (⌊q⌋).toNat

/-- Embeds `eliminate_gloss` from src/analysis/gray_level.py, lines 43-49:
`np.where(image > mean_val + threshold, mean_val, image).astype(np.uint8)`
on a uint8 image.  Pixels kept by `np.where` are integer-valued floats, so
the cast returns them unchanged; replaced pixels receive the mean truncated
by the cast. -/
def eliminate_gloss (image : List ℕ) (threshold : ℚ) : List ℕ :=
  let mean_val := npMean image
  image.map fun (p : ℕ) => if mean_val + threshold < (p : ℚ) then uint8OfRat mean_val else p

/-- Embeds the gloss-removal step of `preprocess_image` from
src/model/gray_level.py, lines 43-44: `no_gloss[no_gloss > gloss_threshold] = 0`
(the absolute-threshold variant, default threshold 230). -/
def preprocess_no_gloss (image : List ℕ) (gloss_threshold : ℕ) : List ℕ :=
  image.map fun p => if gloss_threshold < p then 0 else p

/-- Embeds `analyze_soil` from src/model/gray_level.py, lines 48-52:
`valid_pixels = gray_img[gray_img > 0]`,
`avg_gray = np.mean(valid_pixels) if valid_pixels.size > 0 else 0`,
then the variant-A moisture estimate at the default constants. -/
noncomputable def analyze_soil (gray_img : List ℕ) : ℚ × ℝ :=
  let valid_pixels := gray_img.filter fun p => 0 < p
  let avg_gray : ℚ := if 0 < valid_pixels.length then npMean valid_pixels else 0
  (avg_gray, estimate_swc (avg_gray : ℝ) GL_0 GL_S THETA_S)

theorem floor_le_pyRound (q : ℚ) : ⌊q⌋ ≤ pyRound q := by
  unfold pyRound
  repeat' split
  all_goals omega

theorem pyRound_le_floor_add_one (q : ℚ) : pyRound q ≤ ⌊q⌋ + 1 := by
  unfold pyRound
  repeat' split
  all_goals omega

/-- C9: for every 10-bit ADC code in [0, 1023], the uncalibrated percentage
conversion — the code divided by 10.24, rounded to the nearest integer — is
an integer in [0, 100].  Stated for both embeddings of that conversion,
`ConverttoPercent` (record_analog.py) and `read_percent`
(calibrated_sensor.py). -/
theorem C9_percent_conversion_in_range (data : ℚ) (h0 : 0 ≤ data)
    (h1 : data ≤ 1023) :
    (0 ≤ ConverttoPercent data ∧ ConverttoPercent data ≤ 100) ∧
    (0 ≤ read_percent data ∧ read_percent data ≤ 100) := by
  have key : 0 ≤ pyRound (data / 10.24) ∧ pyRound (data / 10.24) ≤ 100 := by
    have hpos : (0 : ℚ) < 10.24 := by norm_num
    have hx0 : 0 ≤ data / 10.24 := div_nonneg h0 hpos.le
    have hx1 : data / 10.24 < 100 := by
      rw [div_lt_iff₀ hpos]
      calc data ≤ 1023 := h1
        _ < 100 * 10.24 := by norm_num
    constructor
    · exact le_trans (Int.floor_nonneg.mpr hx0) (floor_le_pyRound _)
    · have hfl : ⌊data / 10.24⌋ < 100 := by
        have := Int.floor_lt.mpr (by exact_mod_cast hx1)
        exact_mod_cast this
      exact le_trans (pyRound_le_floor_add_one _) (by omega)
  exact ⟨key, key⟩

theorem C9_percent_conversion_in_range_witness :
    (0 ≤ (1023 : ℚ) ∧ (1023 : ℚ) ≤ 1023) ∧
    ((0 ≤ ConverttoPercent 1023 ∧ ConverttoPercent 1023 ≤ 100) ∧
     (0 ≤ read_percent 1023 ∧ read_percent 1023 ≤ 100)) :=
  ⟨⟨by norm_num, le_refl _⟩,
   C9_percent_conversion_in_range 1023 (by norm_num) (le_refl _)⟩

/-- C3: the regression-fit calibration transform `calibrate` returns a
non-negative percentage for every real-valued raw input and every fitted
line, because the result is floored at zero by `max`. -/
theorem C3_calibrate_nonneg (fit : ℚ × ℚ) (raw_value : ℚ) :
    0 ≤ calibrate fit raw_value :=
  le_max_left 0 _

/-- C10: under the default calibration point set there is an ADC code within
[0, 1023] for which the relative-percentage reading exceeds 100: at raw code
1023 the reading is 205.  The output of `read_calibrated_percent` is not
capped at 100. -/
theorem C10_read_calibrated_percent_exceeds_100 :
    ∃ raw_value : ℚ, 0 ≤ raw_value ∧ raw_value ≤ 1023 ∧
      100 < read_calibrated_percent (polyfit defaultCalibrationPoints) raw_value :=
  ⟨1023, by norm_num, le_refl _, by
    norm_num [read_calibrated_percent, calibrate, polyfit, defaultCalibrationPoints,
      pyRound]⟩

/-- C5 counterexample: constructing the sensor from a calibration set in
which every point has the same (nonzero) raw value does not raise — the
source `__init__` contains no validation, `np.polyfit` only emits a
RankWarning on this rank-deficient set, and construction succeeds and
proceeds to the degenerate fit.  No `InvalidCalibrationError` is raised. -/
theorem C5_counterexample :
    sensorInit (some [(5, 0), (5, 5), (5, 10)]) =
      Except.ok (polyfit [(5, 0), (5, 5), (5, 10)]) := by
  norm_num [sensorInit]

/-- C5 amended: construction validates nothing and raises no dedicated
calibration error.  Any nonempty calibration set containing at least one
nonzero raw value — duplicate and even all-identical raw values included —
is accepted and the least-squares fit proceeds.  Only a set whose raw
values are all zero fails, and there with numpy's `LinAlgError` from
polyfit's division by the zero column norm, still not the claimed
`InvalidCalibrationError`, which does not exist in the source. -/
theorem C5_sensorInit_no_validation (l : List (ℚ × ℚ))
    (hne : l.isEmpty = false) :
    ((∃ pt ∈ l, pt.1 ≠ 0) → sensorInit (some l) = Except.ok (polyfit l)) ∧
    ((∀ pt ∈ l, pt.1 = 0) → sensorInit (some l) = Except.error .linAlgError) := by
  constructor
  · rintro ⟨pt, hmem, hx⟩
    have hnn : ∀ x ∈ l.map fun p => p.1 * p.1, 0 ≤ x := by
      intro x hxm
      obtain ⟨p, _, rfl⟩ := List.mem_map.mp hxm
      exact mul_self_nonneg p.1
    have hpos : 0 < (l.map fun p => p.1 * p.1).sum := by
      have hle : pt.1 * pt.1 ≤ (l.map fun p => p.1 * p.1).sum :=
        List.single_le_sum hnn _ (List.mem_map_of_mem _ hmem)
      exact lt_of_lt_of_le (mul_self_pos.mpr hx) hle
    simp only [sensorInit, hne, Bool.false_eq_true, if_false]
    rw [if_neg (ne_of_gt hpos)]
  · intro hall
    have hz : (l.map fun p => p.1 * p.1).sum = 0 := by
      apply List.sum_eq_zero
      intro x hxm
      obtain ⟨p, hpm, rfl⟩ := List.mem_map.mp hxm
      rw [hall p hpm, mul_zero]
    simp only [sensorInit, hne, Bool.false_eq_true, if_false]
    rw [if_pos hz]

theorem C5_sensorInit_no_validation_witness :
    sensorInit (some [(5, 0), (5, 5)]) = Except.ok (polyfit [(5, 0), (5, 5)]) ∧
    sensorInit (some [(0, 0), (0, 5)]) = Except.error InitError.linAlgError :=
  ⟨(C5_sensorInit_no_validation [(5, 0), (5, 5)] rfl).1
      ⟨(5, 0), by norm_num, by norm_num⟩,
   (C5_sensorInit_no_validation [(0, 0), (0, 5)] rfl).2 (by norm_num)⟩

/-- C4 counterexample: the default calibration point set contains the point
(0, 0), but the regression model queried at raw value 0 returns the fitted
intercept 381155/297332 ≈ 1.282, which misses the reference value 0 by far
more than the tolerance 1e-9.  A least-squares line does not in general pass
through the calibration knots. -/
theorem C4_counterexample :
    ((0 : ℚ), (0 : ℚ)) ∈ defaultCalibrationPoints ∧
    1 / 1000000000 < |calibrate (polyfit defaultCalibrationPoints) 0 - 0| := by
  refine ⟨by simp [defaultCalibrationPoints], lt_of_lt_of_le ?_ (le_abs_self _)⟩
  norm_num [calibrate, polyfit, defaultCalibrationPoints]

theorem polyfit_pair (x0 y0 x1 y1 : ℚ) (hx : x0 ≠ x1) :
    polyfit [(x0, y0), (x1, y1)] =
      ((y0 - y1) / (x0 - x1), y0 - (y0 - y1) / (x0 - x1) * x0) := by
  have hd : x0 - x1 ≠ 0 := sub_ne_zero.mpr hx
  have hden : (2 : ℚ) * (x0 * x0 + x1 * x1) - (x0 + x1) * (x0 + x1) ≠ 0 := by
    have e : (2 : ℚ) * (x0 * x0 + x1 * x1) - (x0 + x1) * (x0 + x1) = (x0 - x1) ^ 2 := by
      ring
    rw [e]
    exact pow_ne_zero 2 hd
  have hslope : (2 * (x0 * y0 + x1 * y1) - (x0 + x1) * (y0 + y1)) /
      (2 * (x0 * x0 + x1 * x1) - (x0 + x1) * (x0 + x1)) = (y0 - y1) / (x0 - x1) := by
    rw [div_eq_div_iff hden hd]
    ring
  simp only [polyfit, List.map_cons, List.map_nil, List.sum_cons, List.sum_nil,
    List.length_cons, List.length_nil, add_zero]
  push_cast
  rw [Prod.mk.injEq]
  refine ⟨hslope, ?_⟩
  rw [hslope]
  field_simp
  ring

/-- C4 amended: the round-trip property holds when the accepted calibration
set consists of exactly two points with distinct raw values and non-negative
reference values — the least-squares line then passes through both points,
so querying at either raw value reproduces its reference value exactly (in
particular within 1e-9).  For larger sets the fit need not reproduce the
knots. -/
theorem C4_two_point_roundtrip (x0 y0 x1 y1 : ℚ) (hx : x0 ≠ x1)
    (hy0 : 0 ≤ y0) (hy1 : 0 ≤ y1) :
    calibrate (polyfit [(x0, y0), (x1, y1)]) x0 = y0 ∧
    calibrate (polyfit [(x0, y0), (x1, y1)]) x1 = y1 := by
  have hd : x0 - x1 ≠ 0 := sub_ne_zero.mpr hx
  rw [polyfit_pair x0 y0 x1 y1 hx]
  unfold calibrate
  constructor
  · have e : (y0 - y1) / (x0 - x1) * x0 + (y0 - (y0 - y1) / (x0 - x1) * x0) = y0 := by
      ring
    simp only [e]
    exact max_eq_right hy0
  · have e : (y0 - y1) / (x0 - x1) * x1 + (y0 - (y0 - y1) / (x0 - x1) * x0) = y1 := by
      field_simp
      ring
    simp only [e]
    exact max_eq_right hy1

theorem C4_two_point_roundtrip_witness :
    (220 : ℚ) ≠ 680 ∧ (0 : ℚ) ≤ 3 ∧ (0 : ℚ) ≤ 15 ∧
    (calibrate (polyfit [(220, 3), (680, 15)]) 220 = 3 ∧
     calibrate (polyfit [(220, 3), (680, 15)]) 680 = 15) :=
  ⟨by norm_num, by norm_num, by norm_num,
   C4_two_point_roundtrip 220 3 680 15 (by norm_num) (by norm_num) (by norm_num)⟩

/-- C1: for variant A (`estimate_swc`), whenever the calibration constants
satisfy `Gs < G0` the transform is exact at both calibration endpoints:
evaluating at the dry-soil gray level `G0` returns exactly 0 and evaluating
at the saturation gray level `Gs` returns exactly `theta_s`. -/
theorem C1_estimate_swc_boundary_exact (G0 Gs theta_s : ℝ) (h : Gs < G0) :
    estimate_swc G0 G0 Gs theta_s = 0 ∧
    estimate_swc Gs G0 Gs theta_s = theta_s := by
  have hne : G0 - Gs ≠ 0 := sub_ne_zero.mpr (ne_of_gt h)
  constructor
  · unfold estimate_swc
    rw [if_neg (by
      rintro (hlt | hlt)
      · exact lt_irrefl _ hlt
      · exact absurd hlt (not_lt.mpr h.le))]
    rw [div_self hne]
    rw [if_neg (by norm_num)]
    rw [Real.sqrt_one]
    ring
  · unfold estimate_swc
    rw [if_neg (by
      rintro (hlt | hlt)
      · exact absurd hlt (not_lt.mpr h.le)
      · exact lt_irrefl _ hlt)]
    rw [sub_self, zero_div]
    rw [if_neg (by norm_num)]
    rw [Real.sqrt_zero]
    ring

theorem C1_estimate_swc_boundary_exact_witness :
    (95 : ℝ) < 120 ∧
    (estimate_swc 120 120 95 17 = 0 ∧ estimate_swc 95 120 95 17 = 17) :=
  ⟨by norm_num, C1_estimate_swc_boundary_exact 120 95 17 (by norm_num)⟩

/-- C2 counterexample: under the default variant-A constants
(`GL_0 = 120`, `GL_S = 95`, `THETA_S = 17`), the lenient transform at gray
level 94 — strictly below the saturation gray level — returns 0, while the
nearest boundary percentage is the value at the boundary 95, namely 17.
The lenient policy therefore does not return the nearest boundary
percentage (nor does any extrapolation flag exist in the source). -/
theorem C2_counterexample :
    estimate_swc 94 120 95 17 = 0 ∧
    estimate_swc 95 120 95 17 = 17 ∧ (0 : ℝ) ≠ 17 := by
  refine ⟨?_, ?_, by norm_num⟩
  · unfold estimate_swc
    rw [if_pos (Or.inr (by norm_num))]
  · unfold estimate_swc
    rw [if_neg (by norm_num)]
    norm_num [Real.sqrt_eq_zero]

/-- C2 amended: for every gray level strictly below the saturation gray
level or strictly above the dry-soil gray level, the strict variant
(`estimate_soil_moisture`) raises — a `ValueError`, the realization of the
spec's `OutOfRangeError` — and the lenient variant (`estimate_swc`) logs the
anomaly and returns the safe default 0, on both sides of the range, rather
than the nearest boundary percentage; no extrapolation flag exists. -/
theorem C2_out_of_range_behaviour (G GL0 GLs u_s G0 Gs theta_s : ℝ)
    (h : G < GLs ∨ GL0 < G) (h2 : G < Gs ∨ G0 < G) :
    estimate_soil_moisture G GL0 GLs u_s = .error .grayLevelOutOfRange ∧
    estimate_swc G G0 Gs theta_s = 0 := by
  constructor
  · unfold estimate_soil_moisture
    rw [if_pos h]
  · unfold estimate_swc
    rw [if_pos (Or.symm h2)]

theorem C2_out_of_range_behaviour_witness :
    ((200 : ℝ) < 75 ∨ (157 : ℝ) < 200) ∧ ((200 : ℝ) < 95 ∨ (120 : ℝ) < 200) ∧
    (estimate_soil_moisture 200 157 75 50 = .error .grayLevelOutOfRange ∧
     estimate_swc 200 120 95 17 = 0) :=
  ⟨Or.inr (by norm_num), Or.inr (by norm_num),
   C2_out_of_range_behaviour 200 157 75 50 120 95 17
     (Or.inr (by norm_num)) (Or.inr (by norm_num))⟩

theorem foldl_min_const (c : ℚ) (l : List ℚ) (h : ∀ p ∈ l, p = c) :
    l.foldl min c = c := by
  induction l with
  | nil => rfl
  | cons a t ih =>
    have ha : a = c := h a (by simp)
    simp only [List.foldl_cons, ha, min_self]
    exact ih fun p hp => h p (by simp [hp])

theorem foldl_max_const (c : ℚ) (l : List ℚ) (h : ∀ p ∈ l, p = c) :
    l.foldl max c = c := by
  induction l with
  | nil => rfl
  | cons a t ih =>
    have ha : a = c := h a (by simp)
    simp only [List.foldl_cons, ha, max_self]
    exact ih fun p hp => h p (by simp [hp])

/-- C6 counterexample: on a constant three-pixel image, brightness
normalization does not fail — it returns successfully, every pixel having
become the non-finite value 0/0 (NaN), which the source then casts to uint8.
A constant image (zero dynamic range) produces an undefined result instead
of an `InvalidInputError`. -/
theorem C6_counterexample :
    apply_brightness_calibration [7, 7, 7] 255 0 = .ok [none, none, none] := by
  simp [apply_brightness_calibration, cvMinMaxLoc, npDiv]

/-- C6 amended: brightness normalization fails only on an empty image, and
there with the OpenCV library error from `cv2.minMaxLoc`, not a dedicated
`InvalidInputError`; on a nonempty image with zero dynamic range (all
pixels equal, so min equals max) it does not fail at all — every output
pixel is the non-finite result of a division by zero, which the subsequent
uint8 cast turns into an undefined value. -/
theorem C6_zero_dynamic_range_behaviour (image : List ℚ)
    (white_ref black_ref : ℚ) :
    (image = [] →
      apply_brightness_calibration image white_ref black_ref =
        .error .emptyInput) ∧
    (∀ c : ℚ, image ≠ [] → (∀ p ∈ image, p = c) →
      apply_brightness_calibration image white_ref black_ref =
        .ok (image.map fun _ => none)) := by
  constructor
  · rintro rfl
    rfl
  · intro c hne hall
    match image, hne with
    | p :: rest, _ =>
      have hp : p = c := hall p (by simp)
      have hmin : rest.foldl min p = c := by
        rw [hp]
        exact foldl_min_const c rest fun q hq => hall q (by simp [hq])
      have hmax : rest.foldl max p = c := by
        rw [hp]
        exact foldl_max_const c rest fun q hq => hall q (by simp [hq])
      simp [apply_brightness_calibration, cvMinMaxLoc, hmin, hmax, npDiv]

theorem C6_zero_dynamic_range_behaviour_witness :
    apply_brightness_calibration ([] : List ℚ) 255 0 = .error .emptyInput ∧
    apply_brightness_calibration [7, 7] 255 0 = .ok [none, none] := by
  constructor
  · exact (C6_zero_dynamic_range_behaviour [] 255 0).1 rfl
  · have h := (C6_zero_dynamic_range_behaviour [7, 7] 255 0).2 7 (by simp) (by simp)
    simpa using h

/-- C7 counterexample: on the two-pixel image [0, 255] with threshold 10,
the pixel 255 exceeds mean + threshold = 137.5 and is replaced — but by 127,
the uint8 cast of the mean 127.5, not by the image mean itself.  The
replaced pixel's stored value differs from the mean whenever the mean is not
an integer. -/
theorem C7_counterexample :
    npMean [0, 255] + 10 < ((255 : ℕ) : ℚ) ∧
    eliminate_gloss [0, 255] 10 = [0, 127] ∧
    ((127 : ℕ) : ℚ) ≠ npMean [0, 255] := by
  refine ⟨by norm_num [npMean], ?_, by norm_num [npMean]⟩
  simp only [eliminate_gloss, npMean, uint8OfRat, List.map_cons, List.map_nil]
  norm_num
  omega

/-- C7 amended: gloss removal replaces exactly those pixels whose value
exceeds mean + threshold, the stored replacement being the image mean as
truncated by the uint8 cast (hence the mean itself exactly when the mean is
an integer); every other pixel is unchanged, and the shape (length) is
preserved.  The absolute-threshold variant zeroes exactly the pixels
exceeding the threshold, leaves every other pixel unchanged, and preserves
the shape. -/
theorem C7_gloss_removal_pointwise (image : List ℕ) (threshold : ℚ)
    (t i p : ℕ) (hp : image[i]? = some p) :
    (eliminate_gloss image threshold).length = image.length ∧
    (preprocess_no_gloss image t).length = image.length ∧
    (eliminate_gloss image threshold)[i]? =
      some (if npMean image + threshold < (p : ℚ) then uint8OfRat (npMean image)
            else p) ∧
    (preprocess_no_gloss image t)[i]? = some (if t < p then 0 else p) := by
  refine ⟨by simp [eliminate_gloss], by simp [preprocess_no_gloss], ?_, ?_⟩
  · simp [eliminate_gloss, List.getElem?_map, hp]
  · simp [preprocess_no_gloss, List.getElem?_map, hp]

theorem C7_gloss_removal_pointwise_witness :
    (eliminate_gloss [0, 255] 10).length = ([0, 255] : List ℕ).length ∧
    (preprocess_no_gloss [0, 255] 230).length = ([0, 255] : List ℕ).length ∧
    (eliminate_gloss [0, 255] 10)[1]? =
      some (if npMean [0, 255] + 10 < ((255 : ℕ) : ℚ) then uint8OfRat (npMean [0, 255])
            else 255) ∧
    (preprocess_no_gloss [0, 255] 230)[1]? = some (if 230 < 255 then 0 else 255) :=
  C7_gloss_removal_pointwise [0, 255] 10 230 1 255 rfl

/-- C8: if every pixel of the conditioned region is zero (in particular if
gloss removal zeroed them all), the set of valid pixels is empty and
`analyze_soil` returns exactly 0 as the mean gray level, by its explicit
guard, instead of the NaN that `np.mean` would produce on an empty set. -/
theorem C8_analyze_soil_all_zero (gray_img : List ℕ)
    (h : ∀ p ∈ gray_img, p = 0) :
    (analyze_soil gray_img).1 = 0 := by
  have hf : gray_img.filter (fun p => 0 < p) = [] := by
    rw [List.filter_eq_nil_iff]
    intro a ha
    simp [h a ha]
  simp [analyze_soil, hf]

theorem C8_analyze_soil_all_zero_witness :
    (∀ p ∈ ([0, 0, 0] : List ℕ), p = 0) ∧ (analyze_soil [0, 0, 0]).1 = 0 :=
  ⟨by decide, C8_analyze_soil_all_zero [0, 0, 0] (by decide)⟩
